import Mathlib

/-!
Shallow embedding of `etcd/client.py` (python-etcd): the `Client` class — its
request dispatcher (`api_execute`), result decoder (`_result_from_response`),
write/CAS parameter construction (`write`, `test_and_set`, `set`), the watch
operations (`watch`, `ethernal_watch`), `get`, and the membership test
(`__contains__`).

The HTTP transport (urllib3's pool manager) and the JSON parser
(`json.loads`) are external collaborators and are modelled as function
parameters.  The companion `etcd` module (providing `EtcdResult`,
`EtcdException` and `EtcdError`) is not part of the source tree; the
definitions taken from it are modelled from the spec and say so in their
doc comments.

Python exceptions are modelled by an explicit error type threaded through
`Except`; in particular, reading an attribute the class does not define
(the source's `self._MPOST` and `self.watch_endpoint`) is an
`attributeError`, and reading a name the module never binds (the bare
`EtcdError` of line 414 — only `import etcd` is bound) is a `nameError`,
each raised at exactly the program point where the source evaluates it.
-/

/-- JSON values, the shape `json.loads` produces. -/
inductive Json where
  | null : Json
  | bool (b : Bool) : Json
  | num (n : Int) : Json
  | str (s : String) : Json
  | arr (elements : List Json) : Json
  | obj (fields : List (String × Json)) : Json

/-- Python values that appear as request parameter values. -/
inductive PyVal where
  | str (s : String)
  | int (n : Int)
  | bool (b : Bool)
deriving Repr, DecidableEq

/-- One HTTP request as handed to the urllib3 pool manager by
`api_execute` (`self.http.request` / `self.http.request_encode_body`). -/
structure HttpRequest where
  method : String
  url : String
  fields : Option (List (String × PyVal))
  encode_body : Bool
  redirect : Bool

/-- One HTTP response as returned by the transport. -/
structure HttpResponse where
  status : Int
  data : String

/-- Python-level failures the client can raise. `attributeError` models a
read of an attribute the object does not have; `nameError` models a read
of a name the module never binds; `jsonDecodeError` models the exception
`json.loads` raises on malformed input; `etcdException` models
`etcd.EtcdException(msg)`; `etcdServerError` models the typed error the
error classifier raises from a server error payload. -/
inductive PyErr where
  | attributeError (name : String)
  | nameError (name : String)
  | jsonDecodeError
  | etcdException (msg : String)
  | etcdServerError (code : Int) (message : String) (cause : String) (index : Option Int)
deriving Repr, DecidableEq

/-- Modelled from the spec: the `etcd.EtcdResult` value type.  The `etcd`
module is not under the source tree; fields follow the spec's Result data
model (sections 3 and 6): `action`, `key`, optional `value`, `dir`
(directory flag, default false), optional `ttl`, optional `expiration`,
`modifiedIndex`, `createdIndex`, and optional `nodes` (children of a
directory listing, kept here as raw JSON). -/
structure EtcdResultV where
  action : String
  key : String
  value : Option String
  dir : Bool
  ttl : Option Int
  expiration : Option String
  modifiedIndex : Int
  createdIndex : Int
  nodes : Option (List Json)

/-- Field names the `EtcdResult` constructor accepts as keyword arguments
(spec section 6: response Result fields). -/
def resultFieldNames : List String :=
  ["action", "key", "value", "dir", "ttl", "expiration",
   "modifiedIndex", "createdIndex", "nodes"]

/-- Project a JSON string. -/
def jStr : Json → Option String
  | Json.str s => Option.some s
  | _ => Option.none

/-- Project a JSON integer. -/
def jInt : Json → Option Int
  | Json.num n => Option.some n
  | _ => Option.none

/-- Project a JSON boolean. -/
def jBool : Json → Option Bool
  | Json.bool b => Option.some b
  | _ => Option.none

/-- Project a JSON array. -/
def jArr : Json → Option (List Json)
  | Json.arr xs => Option.some xs
  | _ => Option.none

/-- Read an optional, type-checked field of a JSON object: absent is fine
(`some none`), present with the wrong shape is a failure (`none`). -/
def optField {α : Type} (fields : List (String × Json)) (name : String)
    (f : Json → Option α) : Option (Option α) :=
  match fields.lookup name with
  | Option.none => Option.some Option.none
  | Option.some j => (f j).map Option.some

/-- Modelled from the spec: constructing an `etcd.EtcdResult` from one
decoded JSON value, as `EtcdResult(**v)` does in
`_result_from_response`.  The value must be a JSON object (else the `**`
unpacking fails), every key must be a recognized Result field (an
unexpected keyword argument fails), `action`, `key`, `modifiedIndex` and
`createdIndex` are required, and the optional fields must have the right
shape when present. -/
def EtcdResult_ofJson (j : Json) : Option EtcdResultV :=
  match j with
  | Json.obj fields =>
    if (fields.map Prod.fst).all (fun k => resultFieldNames.contains k) then
      do
        let a ← fields.lookup "action" >>= jStr
        let k ← fields.lookup "key" >>= jStr
        let mi ← fields.lookup "modifiedIndex" >>= jInt
        let ci ← fields.lookup "createdIndex" >>= jInt
        let v ← optField fields "value" jStr
        let d ← optField fields "dir" jBool
        let t ← optField fields "ttl" jInt
        let ex ← optField fields "expiration" jStr
        let nd ← optField fields "nodes" jArr
        Option.some ⟨a, k, v, d.getD Bool.false, t, ex, mi, ci, nd⟩
    else Option.none
  | _ => Option.none

/-- What `_result_from_response` returns: a single decoded result, or the
ordered list decoded from a JSON sequence. -/
inductive DecodeResult where
  | one (r : EtcdResultV)
  | many (rs : List EtcdResultV)

/-- Field names of the server error payload (spec section 6:
errorCode, message, cause, optional index). -/
def errorFieldNames : List String := ["errorCode", "message", "cause", "index"]

/-- Modelled from the spec: the error classifier `EtcdError.handle` of
the missing `etcd` module (spec section 4.7), the classification line 414
intends to invoke.  A well-formed error object
`errorCode/message/cause/index?` yields the typed server error carrying
exactly those fields; anything else is a local decode failure
(`EtcdException`), never a fabricated server error.  The source never
reaches it: line 414 reads the unbound bare name `EtcdError` and raises
`NameError` first (see `Client.api_execute`); this definition states the
intended classification in isolation. -/
def EtcdError_handle (j : Json) : PyErr :=
  match j with
  | Json.obj fields =>
    if (fields.map Prod.fst).all (fun k => errorFieldNames.contains k) then
      match fields.lookup "errorCode", fields.lookup "message",
            fields.lookup "cause" with
      | Option.some (Json.num code), Option.some (Json.str msg),
        Option.some (Json.str cause) =>
        match fields.lookup "index" with
        | Option.none => PyErr.etcdServerError code msg cause Option.none
        | Option.some (Json.num i) =>
            PyErr.etcdServerError code msg cause (Option.some i)
        | Option.some _ => PyErr.etcdException "Invalid error payload"
      | _, _, _ => PyErr.etcdException "Invalid error payload"
    else PyErr.etcdException "Invalid error payload"
  | _ => PyErr.etcdException "Invalid error payload"

/-- Modelled from the spec: which raised errors are Python `KeyError`s,
which is what `__contains__` catches.  The spec's error taxonomy makes the
classifier's KeyNotFound kind (server error code 100, spec sections 4.4,
7 and 8.6) the key-miss error; the other kinds, and local decode
failures, are not `KeyError`s. -/
def pyIsKeyError : PyErr → Bool
  | PyErr.etcdServerError code _ _ _ => code == 100
  | _ => Bool.false

/-- The `Client` object's constructor-set state (host, port, protocol,
read timeout, redirect policy).  The TLS material and the urllib3 pool are
out of scope; `version_prefix` is always the literal string `/v2`. -/
structure Client where
  host : String
  port : Int
  protocol : String
  read_timeout : Int
  allow_redirect : Bool

/-- `self._base_uri`, built once in `__init__` as
`"%s://%s:%d" % (protocol, host, port)`. -/
def Client.base_uri (c : Client) : String :=
  c.protocol ++ "://" ++ c.host ++ ":" ++ toString c.port

/-- The `key_endpoint` property: `self.version_prefix + '/keys'`, where
`version_prefix` is `'/v2'`. -/
def Client.key_endpoint (_c : Client) : String := "/v2/keys"

/-- The class attribute `_comparison_conditions` (line 24 of the source). -/
def comparison_conditions : List String := ["prevValue", "prevIndex", "prevExists"]

/-- The request `api_execute` hands to the transport for a GET or DELETE:
`self.http.request(method, url, fields=params, redirect=self.allow_redirect)`
with the fields encoded into the URL (no request body). -/
def dispatchRequest (c : Client) (method path : String)
    (params : Option (List (String × PyVal))) : HttpRequest :=
  ⟨method, Client.base_uri c ++ path, params, Bool.false, c.allow_redirect⟩

/-- The request dispatcher `Client.api_execute` (lines 391-414).  The
source's `if` takes the transport branch only for GET and DELETE; for any
other method (PUT included) the `elif` guard evaluates `self._MPOST`, an
attribute the class never defines (it defines `_MGET`, `_MPUT`,
`_MDELETE` only), so the call raises `AttributeError` before any HTTP
request is made.  On a 200 response the raw body is returned.  On any
other status the source evaluates `EtcdError.handle(**json.loads(...))`
(line 414); the module binds only the name `etcd` (`import etcd`), never
the bare name `EtcdError`, and Python evaluates the callable before its
arguments, so the line raises `NameError` before `json.loads` runs and
the classifier is never reached — for parsable and unparsable bodies
alike. -/
def Client.api_execute (c : Client) (http : HttpRequest → HttpResponse)
    (jparse : String → Option Json) (path : String) (method : String)
    (params : Option (List (String × PyVal))) :
    List HttpRequest × Except PyErr String :=
  if method = "GET" ∨ method = "DELETE" then
    let req := dispatchRequest c method path params
    let response := http req
    if response.status = 200 then
      ([req], Except.ok response.data)
    else
      ([req], Except.error (PyErr.nameError "EtcdError"))
  else
    ([], Except.error (PyErr.attributeError "_MPOST"))

/-- The list comprehension `[EtcdResult(**v) for v in res]` of
`_result_from_response`: decode each element independently, left to
right; the whole comprehension fails as soon as one element does. -/
def decodeResultList : List Json → Option (List EtcdResultV)
  | [] => Option.some []
  | x :: xs =>
    match EtcdResult_ofJson x, decodeResultList xs with
    | Option.some r, Option.some rs => Option.some (r :: rs)
    | _, _ => Option.none

/-- The decoder `Client._result_from_response` (lines 381-389): parse the
raw body as JSON; a JSON list becomes one decoded result per element in
the same order, any other JSON value is decoded as a single result; the
bare `except:` turns every failure (malformed JSON, a non-object element,
a constructor error) into the one `EtcdException`. -/
def Client.result_from_response (jparse : String → Option Json)
    (response : String) : Except PyErr DecodeResult :=
  match jparse response with
  | Option.none =>
      Except.error (PyErr.etcdException "Unable to decode server response")
  | Option.some (Json.arr xs) =>
    match decodeResultList xs with
    | Option.some rs => Except.ok (DecodeResult.many rs)
    | Option.none =>
        Except.error (PyErr.etcdException "Unable to decode server response")
  | Option.some j =>
    match EtcdResult_ofJson j with
    | Option.some r => Except.ok (DecodeResult.one r)
    | Option.none =>
        Except.error (PyErr.etcdException "Unable to decode server response")

/-- The precondition-copy loop of `write` (lines 206-209): for each name
in `_comparison_conditions`, copy it from the keyword arguments into the
parameter dictionary when present; no other keyword argument is read and
none is validated (the source carries a `TODO: also validate input?`). -/
def condParams (kwdargs : List (String × PyVal)) : List (String × PyVal) :=
  comparison_conditions.filterMap
    (fun cond => (kwdargs.lookup cond).map (fun v => (cond, v)))

/-- The parameter dictionary `write` builds (lines 199-209): `value`
always; `ttl` when the `ttl` argument is truthy (`if ttl:` — so `None`
and `0` omit it, every other integer, negative included, keeps it); then
the recognized preconditions in `_comparison_conditions` order. -/
def writeParams (value : PyVal) (ttl : Option Int)
    (kwdargs : List (String × PyVal)) : List (String × PyVal) :=
  (match ttl with
   | Option.some t =>
     if t = 0 then [("value", value)]
     else [("value", value), ("ttl", PyVal.int t)]
   | Option.none => [("value", value)]) ++ condParams kwdargs

/-- `Client.write` (lines 174-213): build the parameter dictionary, then
`api_execute(self.key_endpoint + key, PUT, params)`, then decode.  (The
source's `def write(...)` line is also missing its trailing colon; the
body is embedded as written.) -/
def Client.write (c : Client) (http : HttpRequest → HttpResponse)
    (jparse : String → Option Json) (key : String) (value : PyVal)
    (ttl : Option Int) (kwdargs : List (String × PyVal)) :
    List HttpRequest × Except PyErr DecodeResult :=
  let params := writeParams value ttl kwdargs
  let out := Client.api_execute c http jparse (Client.key_endpoint c ++ key)
      "PUT" (Option.some params)
  (out.1, out.2.bind (Client.result_from_response jparse))

/-- `Client.test_and_set` (lines 269-292):
`return self.write(key, value, prevValue=prev_value, ttl=ttl)`. -/
def Client.test_and_set (c : Client) (http : HttpRequest → HttpResponse)
    (jparse : String → Option Json) (key : String)
    (value prev_value : PyVal) (ttl : Option Int) :
    List HttpRequest × Except PyErr DecodeResult :=
  Client.write c http jparse key value ttl [("prevValue", prev_value)]

/-- `Client.set` (lines 294-295): `return self.write(key, value, ttl=ttl)`. -/
def Client.set (c : Client) (http : HttpRequest → HttpResponse)
    (jparse : String → Option Json) (key : String) (value : PyVal)
    (ttl : Option Int) : List HttpRequest × Except PyErr DecodeResult :=
  Client.write c http jparse key value ttl []

/-- `Client.get` (lines 298-319): a GET on the key with
`{'recursive': "true"}` always set, then decode. -/
def Client.get (c : Client) (http : HttpRequest → HttpResponse)
    (jparse : String → Option Json) (key : String) :
    List HttpRequest × Except PyErr DecodeResult :=
  let out := Client.api_execute c http jparse (Client.key_endpoint c ++ key)
      "GET" (Option.some [("recursive", PyVal.str "true")])
  (out.1, out.2.bind (Client.result_from_response jparse))

/-- Python truthiness of the optional `index` argument of `watch`
(`if index:`): `None` and `0` are falsy, every other integer truthy. -/
def pyTruthyOptInt : Option Int → Bool
  | Option.none => Bool.false
  | Option.some i => i != 0

/-- `Client.watch` (lines 321-351).  When `index` is truthy the source
assigns `method = self._MPOST` — an attribute the class never defines —
so the call raises `AttributeError('_MPOST')` at line 345.  When `index`
is falsy it keeps `method = GET`, `params = None`, and then builds the
path from `self.watch_endpoint` — also never defined (the class has only
`key_endpoint`) — so the call raises `AttributeError('watch_endpoint')`
at line 348.  Either way no HTTP request is ever issued. -/
def Client.watch (c : Client) (http : HttpRequest → HttpResponse)
    (jparse : String → Option Json) (key : String) (index : Option Int) :
    List HttpRequest × Except PyErr DecodeResult :=
  if pyTruthyOptInt index then
    ([], Except.error (PyErr.attributeError "_MPOST"))
  else
    ([], Except.error (PyErr.attributeError "watch_endpoint"))

/-- The cursor update at the end of each loop iteration of
`ethernal_watch` (lines 376-377): `if local_index is not None:
local_index += 1`. -/
def ethernalAdvance : Option Int → Option Int
  | Option.some i => Option.some (i + 1)
  | Option.none => Option.none

/-- The cursor `ethernal_watch`'s loop would pass to its n-th `watch`
call: the initial index advanced n times. -/
def ethernalCursor (index : Option Int) : Nat → Option Int
  | 0 => index
  | n + 1 => ethernalAdvance (ethernalCursor index n)

/-- `Client.ethernal_watch` (lines 354-378), as the finite trace of its
first `n` generator pulls: each pull calls `self.watch(key, local_index)`;
a raised exception propagates out of the generator (trace ends with that
error), a returned result is yielded and the cursor advanced. -/
def Client.ethernal_watch (c : Client) (http : HttpRequest → HttpResponse)
    (jparse : String → Option Json) (key : String) :
    Option Int → Nat → List DecodeResult × Option PyErr
  | _, 0 => ([], Option.none)
  | index, n + 1 =>
    match (Client.watch c http jparse key index).2 with
    | Except.error e => ([], Option.some e)
    | Except.ok r =>
      let rest := Client.ethernal_watch c http jparse key (ethernalAdvance index) n
      (r :: rest.1, rest.2)

/-- The membership test `Client.__contains__` (lines 158-169):
`try: self.get(key); return True; except KeyError: return False` — any
exception that is not a `KeyError` propagates. -/
def Client.contains (c : Client) (http : HttpRequest → HttpResponse)
    (jparse : String → Option Json) (key : String) : Except PyErr Bool :=
  match (Client.get c http jparse key).2 with
  | Except.ok _ => Except.ok Bool.true
  | Except.error e =>
    if pyIsKeyError e then Except.ok Bool.false else Except.error e

/-- A concrete client with the constructor's default configuration. -/
def testClient : Client := ⟨"127.0.0.1", 4001, "http", 60, Bool.true⟩

/-- A transport that answers every request with one fixed response. -/
def httpConst (status : Int) (data : String) : HttpRequest → HttpResponse :=
  fun _ => ⟨status, data⟩

/-- A JSON parse function given by a finite table from raw bodies to
parsed values; any body not in the table is malformed. -/
def jparseTable (tbl : List (String × Json)) : String → Option Json :=
  fun s => tbl.lookup s

/-- A well-formed single-result JSON body. -/
def sampleResultJson : Json :=
  Json.obj [("action", Json.str "get"), ("key", Json.str "/k"),
            ("value", Json.str "v"), ("modifiedIndex", Json.num 7),
            ("createdIndex", Json.num 5)]

/-- The result `sampleResultJson` decodes to. -/
def sampleResult : EtcdResultV :=
  ⟨"get", "/k", Option.some "v", Bool.false, Option.none, Option.none, 7, 5,
   Option.none⟩

/-- The spec section 8.6 example error payload. -/
def sampleErrorJson : Json :=
  Json.obj [("errorCode", Json.num 100), ("message", Json.str "Key not found"),
            ("cause", Json.str "/foo"), ("index", Json.num 5)]

/-- A second well-formed single-result JSON body. -/
def sampleResultJson2 : Json :=
  Json.obj [("action", Json.str "set"), ("key", Json.str "/k2"),
            ("modifiedIndex", Json.num 9), ("createdIndex", Json.num 9)]

/-- The result `sampleResultJson2` decodes to. -/
def sampleResult2 : EtcdResultV :=
  ⟨"set", "/k2", Option.none, Bool.false, Option.none, Option.none, 9, 9,
   Option.none⟩

/-- The element decoder made total by a dummy default, used to name the
pointwise image of a decoded list. -/
def sampleDecode (j : Json) : EtcdResultV :=
  (EtcdResult_ofJson j).getD
    ⟨"", "", Option.none, Bool.false, Option.none, Option.none, 0, 0,
     Option.none⟩

/-- C1: contrary to the claim, `write` never executes an HTTP PUT.
`api_execute` has a transport branch only for GET and DELETE and a
(broken) POST branch; for method PUT the `elif` guard reads the attribute
`self._MPOST`, which the class never defines, raising `AttributeError`
before any request is issued — so no raw body is ever returned or
decoded.  For every client, transport, JSON parser, key, value, ttl and
precondition set, the issued-request trace is empty and the call fails. -/
theorem C1_write_never_executes_put (c : Client)
    (http : HttpRequest → HttpResponse) (jparse : String → Option Json)
    (key : String) (value : PyVal) (ttl : Option Int)
    (kwdargs : List (String × PyVal)) :
    Client.write c http jparse key value ttl kwdargs =
      ([], Except.error (PyErr.attributeError "_MPOST")) := rfl

/-- C3: contrary to the claim, `watch` never issues any request.  With a
truthy index the assignment `method = self._MPOST` raises
`AttributeError` on the undefined `_MPOST`; with the index omitted the
path expression `self.watch_endpoint + key` raises `AttributeError` on
the undefined `watch_endpoint`.  In both cases the issued-request trace
is empty. -/
theorem C3_watch_raises_attribute_error (c : Client)
    (http : HttpRequest → HttpResponse) (jparse : String → Option Json)
    (key : String) :
    (∀ i : Int, i ≠ 0 →
        Client.watch c http jparse key (Option.some i) =
          ([], Except.error (PyErr.attributeError "_MPOST"))) ∧
    Client.watch c http jparse key Option.none =
      ([], Except.error (PyErr.attributeError "watch_endpoint")) := by
  constructor
  · intro i hi
    simp [Client.watch, pyTruthyOptInt, hi]
  · rfl

/-- Witness for C3, at index 5 and at the omitted index. -/
theorem C3_watch_raises_attribute_error_witness :
    Client.watch testClient (httpConst 200 "b") (jparseTable []) "/k"
        (Option.some 5) =
      ([], Except.error (PyErr.attributeError "_MPOST")) ∧
    Client.watch testClient (httpConst 200 "b") (jparseTable []) "/k"
        Option.none =
      ([], Except.error (PyErr.attributeError "watch_endpoint")) :=
  ⟨(C3_watch_raises_attribute_error testClient (httpConst 200 "b")
      (jparseTable []) "/k").1 5 (by decide),
   (C3_watch_raises_attribute_error testClient (httpConst 200 "b")
      (jparseTable []) "/k").2⟩

/-- C4: the generator's cursor-advance rule (lines 376-377) does march
i, i+1, i+2, ... for a supplied index and stays index-free otherwise
(last two conjuncts), but no stream produced by `ethernal_watch` ever
delivers a Result: the very first pull's `watch` call raises
`AttributeError` (the bug recorded at C3), so every stream's trace is
empty and ends with that error (first two conjuncts). -/
theorem C4_ethernal_watch_never_delivers :
    (∀ (c : Client) (http : HttpRequest → HttpResponse)
        (jparse : String → Option Json) (key : String) (i : Int) (n : Nat),
        Client.ethernal_watch c http jparse key (Option.some i) (n + 1) =
          ([], Option.some (PyErr.attributeError
            (if i = 0 then "watch_endpoint" else "_MPOST")))) ∧
    (∀ (c : Client) (http : HttpRequest → HttpResponse)
        (jparse : String → Option Json) (key : String) (n : Nat),
        Client.ethernal_watch c http jparse key Option.none (n + 1) =
          ([], Option.some (PyErr.attributeError "watch_endpoint"))) ∧
    (∀ (i : Int) (n : Nat),
        ethernalCursor (Option.some i) n = Option.some (i + (n : Int))) ∧
    (∀ n : Nat, ethernalCursor Option.none n = Option.none) := by
  refine ⟨?_, ?_, ?_, ?_⟩
  · intro c http jparse key i n
    by_cases hi : i = 0
    · subst hi; rfl
    · simp [Client.ethernal_watch, Client.watch, pyTruthyOptInt, hi]
  · intro c http jparse key n; rfl
  · intro i n
    induction n with
    | zero => simp [ethernalCursor]
    | succ n ih =>
      simp [ethernalCursor, ih, ethernalAdvance]
      ring
  · intro n
    induction n with
    | zero => rfl
    | succ n ih => simp [ethernalCursor, ih, ethernalAdvance]

/-- C8: `test_and_set(key, value, prev_value, ttl)` is exactly
`write(key, value, ttl, prevValue=prev_value)`, and `set(key, value,
ttl)` is exactly `write(key, value, ttl)` with no preconditions; the
precondition loop passes exactly the single `prevValue` pair through in
the first case and nothing in the second. -/
theorem C8_sugar (c : Client) (http : HttpRequest → HttpResponse)
    (jparse : String → Option Json) (key : String)
    (value prev_value : PyVal) (ttl : Option Int) :
    Client.test_and_set c http jparse key value prev_value ttl =
      Client.write c http jparse key value ttl [("prevValue", prev_value)] ∧
    Client.set c http jparse key value ttl =
      Client.write c http jparse key value ttl [] ∧
    condParams [("prevValue", prev_value)] = [("prevValue", prev_value)] ∧
    condParams ([] : List (String × PyVal)) = [] :=
  ⟨rfl, rfl, rfl, rfl⟩

/-- C9 counterexample: at index 0 `watch` issues no request at all — the
issued-request trace is empty and the call fails with `AttributeError`
on `watch_endpoint` — so the request issued is not a GET with no
parameters (no request exists). -/
theorem C9_counterexample :
    Client.watch testClient (httpConst 200 "b") (jparseTable []) "/k"
        (Option.some 0) =
      ([], Except.error (PyErr.attributeError "watch_endpoint")) := rfl

/-- C9 amended: `watch(key, 0)` behaves exactly as `watch(key)` with the
index omitted — the truthiness test `if index:` treats 0 as no index, so
the no-replay branch (params None, method GET) is selected and a replay
starting at index 0 can never be requested; as with every watch call,
the undefined `watch_endpoint` attribute then aborts the call before any
request is issued. -/
theorem C9_amended (c : Client) (http : HttpRequest → HttpResponse)
    (jparse : String → Option Json) (key : String) :
    Client.watch c http jparse key (Option.some 0) =
      Client.watch c http jparse key Option.none ∧
    pyTruthyOptInt (Option.some 0) = Bool.false :=
  ⟨rfl, rfl⟩

/-- Every pair the precondition loop emits is keyed by a recognized
precondition name. -/
theorem condParams_key_mem (kwdargs : List (String × PyVal))
    (p : String × PyVal) (hp : p ∈ condParams kwdargs) :
    p.1 ∈ comparison_conditions := by
  rcases List.mem_filterMap.mp hp with ⟨cond, hcond, hf⟩
  rcases Option.map_eq_some'.mp hf with ⟨v, _hv, hpv⟩
  rw [← hpv]
  exact hcond

/-- A leading keyword argument with an unrecognized name is invisible to
the precondition loop. -/
theorem condParams_cons_unrecognized (name : String) (v : PyVal)
    (kwdargs : List (String × PyVal))
    (h : name ∉ comparison_conditions) :
    condParams ((name, v) :: kwdargs) = condParams kwdargs := by
  have h1 : name ≠ "prevValue" := fun e => h (by simp [comparison_conditions, e])
  have h2 : name ≠ "prevIndex" := fun e => h (by simp [comparison_conditions, e])
  have h3 : name ≠ "prevExists" := fun e => h (by simp [comparison_conditions, e])
  have hl : ∀ cond : String, cond ≠ name →
      List.lookup cond ((name, v) :: kwdargs) = List.lookup cond kwdargs := by
    intro cond hc
    have hb : (cond == name) = Bool.false := beq_eq_false_iff_ne.mpr hc
    simp [List.lookup, hb]
  simp only [condParams, comparison_conditions, List.filterMap_cons,
    List.filterMap_nil]
  rw [hl "prevValue" (Ne.symm h1), hl "prevIndex" (Ne.symm h2),
    hl "prevExists" (Ne.symm h3)]

/-- C2 counterexample: a write carrying the unrecognized precondition
name `foo` is not rejected — the parameter dictionary silently drops it
(only `value` remains) and the whole call behaves exactly as the same
call without it. -/
theorem C2_counterexample :
    writeParams (PyVal.str "v") Option.none [("foo", PyVal.str "x")] =
      [("value", PyVal.str "v")] ∧
    Client.write testClient (httpConst 200 "b") (jparseTable []) "/k"
        (PyVal.str "v") Option.none [("foo", PyVal.str "x")] =
      Client.write testClient (httpConst 200 "b") (jparseTable []) "/k"
        (PyVal.str "v") Option.none [] :=
  ⟨rfl, rfl⟩

/-- C2 amended: `write` does not reject unrecognized precondition names —
it silently drops them.  A keyword argument with a name outside
`prevValue`/`prevIndex`/`prevExists` leaves the call and the parameter
dictionary it builds unchanged, and every parameter the call builds is
`value`, `ttl`, or one of the three recognized precondition names. -/
theorem C2_amended (c : Client) (http : HttpRequest → HttpResponse)
    (jparse : String → Option Json) (key : String) (value : PyVal)
    (ttl : Option Int) (kwdargs : List (String × PyVal))
    (name : String) (v : PyVal) (hname : name ∉ comparison_conditions) :
    Client.write c http jparse key value ttl ((name, v) :: kwdargs) =
      Client.write c http jparse key value ttl kwdargs ∧
    writeParams value ttl ((name, v) :: kwdargs) =
      writeParams value ttl kwdargs ∧
    ∀ p ∈ writeParams value ttl kwdargs,
      p.1 = "value" ∨ p.1 = "ttl" ∨ p.1 ∈ comparison_conditions := by
  have hw : writeParams value ttl ((name, v) :: kwdargs) =
      writeParams value ttl kwdargs := by
    unfold writeParams
    rw [condParams_cons_unrecognized name v kwdargs hname]
  refine ⟨?_, hw, ?_⟩
  · unfold Client.write
    rw [hw]
  · intro p hp
    unfold writeParams at hp
    rcases List.mem_append.mp hp with h | h
    · cases ttl with
      | none =>
        simp at h
        left
        rw [h]
      | some t =>
        by_cases ht : t = 0
        · subst ht
          simp at h
          left
          rw [h]
        · simp [ht] at h
          rcases h with h | h
          · left; rw [h]
          · right; left; rw [h]
    · right; right
      exact condParams_key_mem kwdargs p h

/-- Witness for C2 amended: dropping the unrecognized `foo` leaves the
parameters unchanged, and the surviving `prevValue` pair is recognized. -/
theorem C2_amended_witness :
    writeParams (PyVal.str "v") (Option.some 9)
        (("foo", PyVal.str "x") :: [("prevValue", PyVal.str "old")]) =
      writeParams (PyVal.str "v") (Option.some 9)
        [("prevValue", PyVal.str "old")] ∧
    (("prevValue", PyVal.str "old").1 = "value" ∨
     ("prevValue", PyVal.str "old").1 = "ttl" ∨
     ("prevValue", PyVal.str "old").1 ∈ comparison_conditions) :=
  ⟨(C2_amended testClient (httpConst 200 "b") (jparseTable []) "/k"
      (PyVal.str "v") (Option.some 9) [("prevValue", PyVal.str "old")]
      "foo" (PyVal.str "x") (by decide)).2.1,
   (C2_amended testClient (httpConst 200 "b") (jparseTable []) "/k"
      (PyVal.str "v") (Option.some 9) [("prevValue", PyVal.str "old")]
      "foo" (PyVal.str "x") (by decide)).2.2
     ("prevValue", PyVal.str "old") (by decide)⟩

/-- C7 counterexample: a negative ttl is truthy in Python (`if ttl:`), so
`write` includes `ttl = -1` among its parameters even though -1 is not
positive — refuting "for a non-positive ttl the body carries no ttl". -/
theorem C7_counterexample :
    writeParams (PyVal.str "v") (Option.some (-1)) [] =
      [("value", PyVal.str "v"), ("ttl", PyVal.int (-1))] := rfl

/-- C7 amended: the `ttl` parameter is included in the parameter set
`write` builds iff a ttl was provided and is nonzero (Python truthiness):
an absent or zero ttl omits it, and any other ttl — negative included —
keeps it with its value unchanged.  (No PUT request is actually
dispatched; see the C1 record.) -/
theorem C7_amended (value : PyVal) (ttl : Option Int)
    (kwdargs : List (String × PyVal)) :
    ("ttl" ∈ (writeParams value ttl kwdargs).map Prod.fst ↔
      ∃ t : Int, ttl = Option.some t ∧ t ≠ 0) ∧
    ∀ t : Int, t ≠ 0 → ttl = Option.some t →
      ("ttl", PyVal.int t) ∈ writeParams value ttl kwdargs := by
  have hcp : "ttl" ∉ (condParams kwdargs).map Prod.fst := by
    intro hmem
    rcases List.mem_map.mp hmem with ⟨p, hp, hfst⟩
    have hk := condParams_key_mem kwdargs p hp
    rw [hfst] at hk
    simp [comparison_conditions] at hk
  constructor
  · cases ttl with
    | none => simp [writeParams, hcp]
    | some t =>
      by_cases ht : t = 0
      · subst ht
        simp [writeParams, hcp]
      · simp [writeParams, ht, hcp]
  · intro t ht he
    subst he
    simp [writeParams, ht]

/-- Witness for C7 amended at the provided, nonzero ttl 3. -/
theorem C7_amended_witness :
    ("ttl", PyVal.int 3) ∈ writeParams (PyVal.str "v") (Option.some 3) [] :=
  (C7_amended (PyVal.str "v") (Option.some 3) []).2 3 (by decide) rfl

/-- When the element decoder succeeds on every element, decoding the list
yields exactly the ordered, element-wise image. -/
theorem decodeResultList_eq_map (g : Json → EtcdResultV) :
    ∀ xs : List Json, (∀ x ∈ xs, EtcdResult_ofJson x = Option.some (g x)) →
      decodeResultList xs = Option.some (xs.map g) := by
  intro xs
  induction xs with
  | nil => intro _; rfl
  | cons x t ih =>
    intro hx
    have h1 : EtcdResult_ofJson x = Option.some (g x) :=
      hx x (List.mem_cons_self x t)
    have h2 := ih (fun y hy => hx y (List.mem_cons_of_mem x hy))
    simp [decodeResultList, h1, h2]

/-- Every failure of the result decoder is the one decode exception. -/
theorem result_from_response_failure (jparse : String → Option Json)
    (body : String) :
    ∀ e, Client.result_from_response jparse body = Except.error e →
      e = PyErr.etcdException "Unable to decode server response" := by
  intro e he
  unfold Client.result_from_response at he
  split at he
  · injection he with h
    exact h.symm
  · split at he
    · exact absurd he (by simp)
    · injection he with h
      exact h.symm
  · split at he
    · exact absurd he (by simp)
    · injection he with h
      exact h.symm

/-- C5: `_result_from_response` decodes a JSON sequence into one Result
per element, independently and in the same order (the element-wise image
of the sequence, no re-sorting); a single JSON object decodes into
exactly one Result; and every failing body — malformed JSON or a value
of the wrong shape — fails uniformly with the one
`EtcdException('Unable to decode server response')`. -/
theorem C5_result_decoder (jparse : String → Option Json) (body : String) :
    (∀ (xs : List Json) (g : Json → EtcdResultV),
        jparse body = Option.some (Json.arr xs) →
        (∀ x ∈ xs, EtcdResult_ofJson x = Option.some (g x)) →
        Client.result_from_response jparse body =
          Except.ok (DecodeResult.many (xs.map g))) ∧
    (∀ (j : Json) (r : EtcdResultV),
        jparse body = Option.some j → (∀ ys, j ≠ Json.arr ys) →
        EtcdResult_ofJson j = Option.some r →
        Client.result_from_response jparse body =
          Except.ok (DecodeResult.one r)) ∧
    (∀ e, Client.result_from_response jparse body = Except.error e →
        e = PyErr.etcdException "Unable to decode server response") := by
  refine ⟨?_, ?_, result_from_response_failure jparse body⟩
  · intro xs g hp hg
    simp [Client.result_from_response, hp, decodeResultList_eq_map g xs hg]
  · intro j r hp hj hr
    cases j with
    | null => simp [Client.result_from_response, hp, hr]
    | bool b => simp [Client.result_from_response, hp, hr]
    | num n => simp [Client.result_from_response, hp, hr]
    | str s => simp [Client.result_from_response, hp, hr]
    | arr ys => exact absurd rfl (hj ys)
    | obj fields => simp [Client.result_from_response, hp, hr]

/-- Witness for C5: a two-element JSON sequence decodes to its two
results, in sequence order. -/
theorem C5_result_decoder_witness :
    Client.result_from_response
        (jparseTable [("b", Json.arr [sampleResultJson, sampleResultJson2])])
        "b" =
      Except.ok (DecodeResult.many [sampleResult, sampleResult2]) :=
  (C5_result_decoder
      (jparseTable [("b", Json.arr [sampleResultJson, sampleResultJson2])])
      "b").1 [sampleResultJson, sampleResultJson2] sampleDecode rfl
    (by
      intro x hx
      simp at hx
      rcases hx with h | h <;> subst h <;> rfl)

/-- C6: contrary to the claim, a non-200 response is never parsed and
never reaches the error classifier: line 414 reads the unbound bare name
`EtcdError` (the module binds only `etcd`), and Python evaluates the
callable before its arguments, so every dispatched GET or DELETE whose
response status is not 200 fails with `NameError` — before `json.loads`
runs, for parsable and unparsable bodies alike, yielding neither a
classified typed Error nor a decode error (first conjunct).  The
spec-modelled classifier the line intends to invoke would, in isolation,
carry exactly the body's errorCode/message/cause/index fields (second
conjunct). -/
theorem C6_non200_raises_name_error (c : Client)
    (http : HttpRequest → HttpResponse) (jparse : String → Option Json)
    (path method : String) (params : Option (List (String × PyVal)))
    (hm : method = "GET" ∨ method = "DELETE")
    (hs : (http (dispatchRequest c method path params)).status ≠ 200) :
    (Client.api_execute c http jparse path method params).2 =
      Except.error (PyErr.nameError "EtcdError") ∧
    (∀ (fields : List (String × Json)) (code : Int) (msg cause : String)
        (idx : Option Int),
        fields.lookup "errorCode" = Option.some (Json.num code) →
        fields.lookup "message" = Option.some (Json.str msg) →
        fields.lookup "cause" = Option.some (Json.str cause) →
        fields.lookup "index" = idx.map Json.num →
        ((fields.map Prod.fst).all
          (fun k => errorFieldNames.contains k)) = Bool.true →
        EtcdError_handle (Json.obj fields) =
          PyErr.etcdServerError code msg cause idx) := by
  constructor
  · rcases hm with h | h <;> subst h <;>
      simp [Client.api_execute, hs]
  · intro fields code msg cause idx h1 h2 h3 h4 h5
    unfold EtcdError_handle
    split
    · rename_i fields2 heq
      have hfe : fields = fields2 := Json.obj.inj heq
      subst hfe
      rw [if_pos h5, h1, h2, h3, h4]
      cases idx with
      | none => rfl
      | some i => rfl
    · rename_i x heqj
      exact absurd (heqj fields rfl) (fun f => f)

/-- Witness for C6: a 404 carrying the spec's example error payload —
parsable as a well-formed error object, as the second conjunct shows —
still fails the dispatched GET with the NameError, not with the
classified error. -/
theorem C6_non200_raises_name_error_witness :
    (Client.api_execute testClient (httpConst 404 "err")
        (jparseTable [("err", sampleErrorJson)]) "/v2/keys/k" "GET"
        Option.none).2 =
      Except.error (PyErr.nameError "EtcdError") ∧
    EtcdError_handle sampleErrorJson =
      PyErr.etcdServerError 100 "Key not found" "/foo" (Option.some 5) :=
  ⟨(C6_non200_raises_name_error testClient (httpConst 404 "err")
      (jparseTable [("err", sampleErrorJson)]) "/v2/keys/k" "GET"
      Option.none (Or.inl rfl) (by decide)).1,
   (C6_non200_raises_name_error testClient (httpConst 404 "err")
      (jparseTable [("err", sampleErrorJson)]) "/v2/keys/k" "GET"
      Option.none (Or.inl rfl) (by decide)).2
     [("errorCode", Json.num 100), ("message", Json.str "Key not found"),
      ("cause", Json.str "/foo"), ("index", Json.num 5)]
     100 "Key not found" "/foo" (Option.some 5) rfl rfl rfl rfl (by decide)⟩


/-- C10: the membership test returns True exactly when `get` succeeds;
it returns False exactly when `get` raises the key-miss `KeyError` (the
classified server error with code 100); and it propagates every other
failure — decode failures and differently-coded server errors included —
unchanged to the caller. -/
theorem C10_contains (c : Client) (http : HttpRequest → HttpResponse)
    (jparse : String → Option Json) (key : String) :
    (∀ r, (Client.get c http jparse key).2 = Except.ok r →
        Client.contains c http jparse key = Except.ok Bool.true) ∧
    (∀ (msg cause : String) (idx : Option Int),
        (Client.get c http jparse key).2 =
          Except.error (PyErr.etcdServerError 100 msg cause idx) →
        Client.contains c http jparse key = Except.ok Bool.false) ∧
    (∀ e, (Client.get c http jparse key).2 = Except.error e →
        pyIsKeyError e = Bool.false →
        Client.contains c http jparse key = Except.error e) ∧
    (∀ msg, pyIsKeyError (PyErr.etcdException msg) = Bool.false) ∧
    pyIsKeyError PyErr.jsonDecodeError = Bool.false ∧
    (∀ (code : Int) (msg cause : String) (idx : Option Int), code ≠ 100 →
        pyIsKeyError (PyErr.etcdServerError code msg cause idx) =
          Bool.false) := by
  refine ⟨?_, ?_, ?_, ?_, rfl, ?_⟩
  · intro r hr
    simp [Client.contains, hr]
  · intro msg cause idx h
    simp [Client.contains, h, pyIsKeyError]
  · intro e he hk
    simp [Client.contains, he, hk]
  · intro msg
    rfl
  · intro code msg cause idx hc
    simp [pyIsKeyError, hc]

/-- Witness for C10: a successful recursive get makes membership true. -/
theorem C10_contains_witness :
    Client.contains testClient (httpConst 200 "body")
        (jparseTable [("body", sampleResultJson)]) "/k" =
      Except.ok Bool.true :=
  (C10_contains testClient (httpConst 200 "body")
      (jparseTable [("body", sampleResultJson)]) "/k").1
    (DecodeResult.one sampleResult) rfl
